import Mathlib

/-!
Verification of the vLLM KV-cache block manager core and its serving
front-end, shallowly embedded from the Python sources under `vllm/`.

Translation conventions: Python lists become `List`, `None`/optional values
become `Option`, raised exceptions become `Except String`, dicts keyed by
integers become association lists, machine floats used only for ordering
(`last_accessed`) become `Int`.
-/

namespace VLLM

/-! ## vllm/block.py -/

/-- Source `DEFAULT_LAST_ACCESSED_TIME: float = -1` (timestamps are used only for
ordering, so they are embedded as `Int`). -/
def DEFAULT_LAST_ACCESSED_TIME : Int := -1

/-- Source `PhysicalTokenBlock`: the state of a block in the KV cache
(vllm/block.py, dataclass). `device` is the `Device` enum, embedded as `Nat`. -/
structure PhysicalTokenBlock where
  device : Nat
  block_number : Nat
  block_size : Nat
  block_hash : Int
  num_hashed_tokens : Nat
  ref_count : Nat := 0
  last_accessed : Int := DEFAULT_LAST_ACCESSED_TIME
  computed : Bool := false
deriving Repr, DecidableEq

/-- Source `BlockTable`: holds a list of blocks with caching of their associated
block ids (vllm/block.py). -/
structure BlockTable where
  blocks : List PhysicalTokenBlock
  block_ids : List Nat
deriving Repr, DecidableEq

namespace BlockTable

/-- The freshly initialised table before any `append` (both caches empty). -/
def empty : BlockTable := ⟨[], []⟩

/-- Source `append(self, block)`: appends to `_blocks` and caches the id in
`_block_ids`. -/
def append (t : BlockTable) (b : PhysicalTokenBlock) : BlockTable :=
  ⟨t.blocks ++ [b], t.block_ids ++ [b.block_number]⟩

/-- Source `__init__(self, blocks=None)`: starts empty, then appends each block of
the optional argument in order. -/
def init (blocks : Option (List PhysicalTokenBlock)) : BlockTable :=
  match blocks with
  | none => empty
  | some bs => bs.foldl append empty

/-- Source `__setitem__` with an integer key: writes the block and its id at the
same index. -/
def setItem (t : BlockTable) (k : Nat) (b : PhysicalTokenBlock) : BlockTable :=
  ⟨t.blocks.set k b, t.block_ids.set k b.block_number⟩

/-- Source `__setitem__` with a slice key `[i:j]` (non-negative bounds): replaces
the sub-range by the new blocks in `_blocks` and by their ids in
`_block_ids`.  Like Python, bounds are clamped to the list length and an
empty range (`j ≤ i`) inserts at `i`. -/
def setSlice (t : BlockTable) (i j : Nat) (bs : List PhysicalTokenBlock) :
    BlockTable :=
  ⟨t.blocks.take i ++ bs ++ t.blocks.drop (max i j),
   t.block_ids.take i ++ bs.map (fun b => b.block_number) ++
     t.block_ids.drop (max i j)⟩

/-- Source `reset(self)`: empties both lists. -/
def reset (_ : BlockTable) : BlockTable := empty

/-- Source `copy(self) -> BlockTable`: `return BlockTable(self._blocks)`. -/
def copy (t : BlockTable) : BlockTable := init (some t.blocks)

/-- Source `list(self)`: returns `_blocks`. -/
def list (t : BlockTable) : List PhysicalTokenBlock := t.blocks

/-- Source `ids(self)`: returns `_block_ids`. -/
def ids (t : BlockTable) : List Nat := t.block_ids

/-- The id cache mirrors the block list. -/
def WF (t : BlockTable) : Prop :=
  t.block_ids = t.blocks.map PhysicalTokenBlock.block_number

theorem append_blocks (t : BlockTable) (b : PhysicalTokenBlock) :
    (t.append b).blocks = t.blocks ++ [b] := rfl

theorem append_ids (t : BlockTable) (b : PhysicalTokenBlock) :
    (t.append b).block_ids = t.block_ids ++ [b.block_number] := rfl

theorem WF.append {t : BlockTable} (h : t.WF) (b : PhysicalTokenBlock) :
    (t.append b).WF := by
  simp [BlockTable.append, WF] at *
  simp [h]

theorem foldl_append_blocks (bs : List PhysicalTokenBlock) (t : BlockTable) :
    (bs.foldl append t).blocks = t.blocks ++ bs := by
  induction bs generalizing t with
  | nil => simp
  | cons b bs ih => simp [ih, BlockTable.append]

theorem foldl_append_ids (bs : List PhysicalTokenBlock) (t : BlockTable) :
    (bs.foldl append t).block_ids =
      t.block_ids ++ bs.map PhysicalTokenBlock.block_number := by
  induction bs generalizing t with
  | nil => simp
  | cons b bs ih => simp [ih, BlockTable.append]

theorem init_some_blocks (bs : List PhysicalTokenBlock) :
    (init (some bs)).blocks = bs := by
  simp [init, foldl_append_blocks, empty]

theorem init_some_ids (bs : List PhysicalTokenBlock) :
    (init (some bs)).block_ids = bs.map PhysicalTokenBlock.block_number := by
  simp [init, foldl_append_ids, empty]

theorem WF.init (obs : Option (List PhysicalTokenBlock)) :
    (init obs).WF := by
  cases obs with
  | none => rfl
  | some bs => simp [WF, init_some_blocks, init_some_ids]

theorem WF.setItem {t : BlockTable} (h : t.WF) (k : Nat)
    (b : PhysicalTokenBlock) : (t.setItem k b).WF := by
  simp [BlockTable.setItem, WF] at *
  simp [h, List.map_set]

theorem WF.setSlice {t : BlockTable} (h : t.WF) (i j : Nat)
    (bs : List PhysicalTokenBlock) : (t.setSlice i j bs).WF := by
  simp [BlockTable.setSlice, WF] at *
  simp [h, List.map_take, List.map_drop]

theorem WF.reset (t : BlockTable) : t.reset.WF := rfl

theorem WF.copy (t : BlockTable) : t.copy.WF := WF.init (some t.blocks)

/-- Tables reachable through the public operations of `BlockTable`. -/
inductive Reachable : BlockTable → Prop
  | init (obs : Option (List PhysicalTokenBlock)) : Reachable (init obs)
  | append {t : BlockTable} (b : PhysicalTokenBlock) :
      Reachable t → Reachable (t.append b)
  | setItem {t : BlockTable} (k : Nat) (b : PhysicalTokenBlock) :
      Reachable t → Reachable (t.setItem k b)
  | setSlice {t : BlockTable} (i j : Nat) (bs : List PhysicalTokenBlock) :
      Reachable t → Reachable (t.setSlice i j bs)
  | reset {t : BlockTable} : Reachable t → Reachable t.reset
  | copy {t : BlockTable} : Reachable t → Reachable t.copy

theorem Reachable.wf {t : BlockTable} (h : Reachable t) : t.WF := by
  induction h with
  | init obs => exact WF.init obs
  | append b _ ih => exact ih.append b
  | setItem k b _ ih => exact ih.setItem k b
  | setSlice i j bs _ ih => exact ih.setSlice i j bs
  | reset _ _ => exact WF.reset _
  | copy _ _ => exact WF.copy _

end BlockTable

/-- A concrete block with reference count 0, for exercising `copy`. -/
def c1Block : PhysicalTokenBlock :=
  { device := 0, block_number := 3, block_size := 16, block_hash := 0,
    num_hashed_tokens := 0, ref_count := 0, last_accessed := -1,
    computed := false }

/-- A concrete one-block table. -/
def c1Table : BlockTable := BlockTable.init (some [c1Block])

/-- C1 (counterexample): `BlockTable.copy` does not increment reference
counts.  On a table holding a single block with reference count 0, the claim
predicts every block of the copy carries reference count old + 1 = 1, but
the copy's block still has reference count 0: `copy` never touches
`ref_count`. -/
theorem C1_copy_does_not_increment_refcounts :
    ¬ (c1Table.copy.list.map PhysicalTokenBlock.ref_count =
        c1Table.list.map (fun b => b.ref_count + 1)) := by
  decide

/-- C1 (amended): for every well-formed `BlockTable` `t`, `copy` returns a
new table whose block list and block-id list equal `t`'s, and it leaves the
reference count of every block unchanged (no reference count is incremented;
the ref-count bump of a fork lives in the block manager, not in
`BlockTable.copy`), leaving `t` itself unchanged. -/
theorem C1_copy_shares_blocks_and_ids {t : BlockTable} (h : t.WF) :
    t.copy.list = t.list ∧ t.copy.ids = t.ids ∧
    t.copy.list.map PhysicalTokenBlock.ref_count =
      t.list.map PhysicalTokenBlock.ref_count := by
  refine ⟨?_, ?_, ?_⟩
  · simp [BlockTable.copy, BlockTable.list, BlockTable.init_some_blocks]
  · simp only [BlockTable.copy, BlockTable.ids, BlockTable.init_some_ids]
    exact h.symm
  · simp [BlockTable.copy, BlockTable.list, BlockTable.init_some_blocks]

/-- C1 witness: the amended statement evaluated on the concrete one-block
table. -/
theorem C1_copy_shares_blocks_and_ids_witness :
    c1Table.copy.list = c1Table.list ∧ c1Table.copy.ids = c1Table.ids ∧
    c1Table.copy.list.map PhysicalTokenBlock.ref_count =
      c1Table.list.map PhysicalTokenBlock.ref_count :=
  C1_copy_shares_blocks_and_ids (BlockTable.WF.init (some [c1Block]))

/-- C6: every table reachable through the public `BlockTable` operations
(construction from a block list, `append`, `__setitem__` with an index or a
slice, `reset`, `copy`) keeps its cached id list mirroring its block list:
`ids()` has the length of the table and `ids()[i] = list()[i].block_number`
at every valid index. -/
theorem C6_block_ids_mirror_blocks {t : BlockTable}
    (h : BlockTable.Reachable t) :
    t.ids.length = t.list.length ∧
    ∀ i : Nat,
      t.ids[i]? = (t.list[i]?).map PhysicalTokenBlock.block_number := by
  have hwf := h.wf
  simp only [BlockTable.WF] at hwf
  refine ⟨?_, ?_⟩
  · simp [BlockTable.ids, BlockTable.list, hwf]
  · intro i
    simp [BlockTable.ids, BlockTable.list, hwf]

/-- A concrete table built through public operations: constructed from a
list, extended with `append`, then overwritten at index 0. -/
def c6Table : BlockTable :=
  ((BlockTable.init (some [c1Block])).append c1Block).setItem 0 c1Block

/-- C6 witness: the invariant evaluated on a concrete reachable table. -/
theorem C6_block_ids_mirror_blocks_witness :
    c6Table.ids.length = c6Table.list.length ∧
    ∀ i : Nat,
      c6Table.ids[i]? = (c6Table.list[i]?).map PhysicalTokenBlock.block_number :=
  C6_block_ids_mirror_blocks
    (((BlockTable.Reachable.init (some [c1Block])).append c1Block).setItem
      0 c1Block)

/-! ## vllm/entrypoints/openai/serving_engine.py -/

/-- Source `TextTokensPrompt` (TypedDict): the validated prompt. -/
structure TextTokensPrompt where
  prompt : String
  prompt_token_ids : List Nat
deriving Repr, DecidableEq

/-- The request classes `_validate_input` dispatches on (`AnyRequest`):
chat-completion and completion requests carry an optional `max_tokens`;
embedding, tokenize and detokenize requests carry none. -/
inductive AnyRequest where
  | chatCompletion (max_tokens : Option Nat)
  | completion (max_tokens : Option Nat)
  | embedding
  | tokenizeCompletion
  | tokenizeChat
  | detokenize
deriving Repr, DecidableEq

/-- Source `OpenAIServing._validate_input(request, input_ids, input_text)`:
checks the prompt length against `self.max_model_len` and either raises
`ValueError` or returns the `TextTokensPrompt`.  Mirrors the source's
branch order: the `EmbeddingRequest` check, then the
tokenize/detokenize early return, then the `max_tokens` checks. -/
def validate_input (max_model_len : Nat) (request : AnyRequest)
    (input_ids : List Nat) (input_text : String) :
    Except String TextTokensPrompt :=
  let token_num := input_ids.length
  match request with
  | .embedding =>
      if token_num > max_model_len then
        .error "This model's maximum context length is exceeded (embedding)"
      else
        .ok ⟨input_text, input_ids⟩
  | .tokenizeCompletion | .tokenizeChat | .detokenize =>
      .ok ⟨input_text, input_ids⟩
  | .chatCompletion max_tokens | .completion max_tokens =>
      match max_tokens with
      | none =>
          if token_num ≥ max_model_len then
            .error "This model's maximum context length is exceeded"
          else
            .ok ⟨input_text, input_ids⟩
      | some m =>
          if token_num + m > max_model_len then
            .error "This model's maximum context length is exceeded"
          else
            .ok ⟨input_text, input_ids⟩

/-- An `Except` result that raised. -/
def raised {ε α : Type} (r : Except ε α) : Prop :=
  ∃ e, r = Except.error e

instance {ε α : Type} (r : Except ε α) : Decidable (raised r) :=
  match r with
  | .error e => .isTrue ⟨e, rfl⟩
  | .ok _ => .isFalse (by rintro ⟨e, h⟩; cases h)

/-- C2: for a non-embedding, non-tokenize/detokenize request,
`_validate_input` raises exactly when the prompt is too long — with
`max_tokens = some m` exactly when `len(input_ids) + m > max_model_len`,
with `max_tokens = none` exactly when `len(input_ids) ≥ max_model_len` —
and otherwise returns the `TextTokensPrompt` with `input_text` and
`input_ids` unchanged; for embedding requests the bound is
`len(input_ids) > max_model_len`. -/
theorem C2_validate_input_length_checks (L : Nat) (ids : List Nat)
    (txt : String) :
    (∀ r ∈ [AnyRequest.chatCompletion none, AnyRequest.completion none],
      (raised (validate_input L r ids txt) ↔ ids.length ≥ L) ∧
      (ids.length < L → validate_input L r ids txt = .ok ⟨txt, ids⟩)) ∧
    (∀ m : Nat,
      ∀ r ∈ [AnyRequest.chatCompletion (some m),
             AnyRequest.completion (some m)],
      (raised (validate_input L r ids txt) ↔ ids.length + m > L) ∧
      (ids.length + m ≤ L → validate_input L r ids txt = .ok ⟨txt, ids⟩)) ∧
    (raised (validate_input L .embedding ids txt) ↔ ids.length > L) ∧
    (ids.length ≤ L → validate_input L .embedding ids txt = .ok ⟨txt, ids⟩) := by
  refine ⟨?_, ?_, ?_, ?_⟩
  · intro r hr
    simp only [List.mem_cons, List.not_mem_nil, or_false] at hr
    rcases hr with h | h <;>
      (subst h
       constructor
       · by_cases hc : ids.length ≥ L <;>
           simp [validate_input, raised, hc]
       · intro hc
         simp [validate_input, Nat.not_le.mpr hc])
  · intro m r hr
    simp only [List.mem_cons, List.not_mem_nil, or_false] at hr
    rcases hr with h | h <;>
      (subst h
       constructor
       · by_cases hc : ids.length + m > L <;>
           simp [validate_input, raised, hc]
       · intro hc
         simp [validate_input]
         omega)
  · by_cases hc : ids.length > L <;> simp [validate_input, raised, hc]
  · intro hc
    simp [validate_input, Nat.not_lt.mpr hc]

/-- C2 witness: with `max_model_len = 4`, a 3-token prompt is accepted when
`max_tokens` is absent (3 < 4) and the embedding bound admits a 4-token
input. -/
theorem C2_validate_input_length_checks_witness :
    ((raised (validate_input 4 (.chatCompletion none) [1, 2, 3] "abc") ↔
        ([1, 2, 3] : List Nat).length ≥ 4) ∧
      (([1, 2, 3] : List Nat).length < 4 →
        validate_input 4 (.chatCompletion none) [1, 2, 3] "abc" =
          .ok ⟨"abc", [1, 2, 3]⟩)) ∧
    (([1, 2, 3, 4] : List Nat).length ≤ 4 →
      validate_input 4 .embedding [1, 2, 3, 4] "abcd" =
        .ok ⟨"abcd", [1, 2, 3, 4]⟩) :=
  ⟨(C2_validate_input_length_checks 4 [1, 2, 3] "abc").1
      (.chatCompletion none) (by simp),
   (C2_validate_input_length_checks 4 [1, 2, 3, 4] "abcd").2.2.2⟩

/-- C10: tokenize and detokenize requests are returned unchanged by
`_validate_input` with no context-length check: for every `input_ids`, of
any length (in particular longer than `max_model_len`), the result is
`TextTokensPrompt(prompt=input_text, prompt_token_ids=input_ids)` and no
`ValueError` is raised. -/
theorem C10_tokenize_requests_skip_length_check (L : Nat) (ids : List Nat)
    (txt : String) :
    validate_input L .tokenizeCompletion ids txt = .ok ⟨txt, ids⟩ ∧
    validate_input L .tokenizeChat ids txt = .ok ⟨txt, ids⟩ ∧
    validate_input L .detokenize ids txt = .ok ⟨txt, ids⟩ := by
  refine ⟨rfl, rfl, rfl⟩

/-! ## PhysicalBlockPool eviction -/

/-- Picks the block with the older `last_accessed` stamp, keeping the left
one on ties (so a left fold returns the first-oldest block). -/
def olderOf (a b : PhysicalTokenBlock) : PhysicalTokenBlock :=
  if b.last_accessed < a.last_accessed then b else a

/-- Modelled from the spec: the `PhysicalBlockPool.evict_one` operation is
not part of the sources here (only the `PhysicalTokenBlock` state it reads
is, in vllm/block.py); per the spec it "selects the cached block with
reference count 0 and the oldest last-access time (LRU) among unreferenced
blocks ... Fails with `NoEvictableBlock` if every block has reference
count ≥ 1". -/
def evict_one (blocks : List PhysicalTokenBlock) :
    Except String PhysicalTokenBlock :=
  match blocks.filter (fun b => b.ref_count == 0) with
  | [] => .error "NoEvictableBlock"
  | b :: rest => .ok (rest.foldl olderOf b)

theorem foldl_olderOf_mem (a : PhysicalTokenBlock)
    (l : List PhysicalTokenBlock) : l.foldl olderOf a ∈ a :: l := by
  induction l generalizing a with
  | nil => simp
  | cons b bs ih =>
    have h := ih (olderOf a b)
    simp only [List.foldl_cons]
    rcases List.mem_cons.mp h with h | h
    · rw [h]
      unfold olderOf
      by_cases hc : b.last_accessed < a.last_accessed <;> simp [hc]
    · simp [h]

theorem foldl_olderOf_le (a : PhysicalTokenBlock)
    (l : List PhysicalTokenBlock) :
    ∀ c ∈ a :: l, (l.foldl olderOf a).last_accessed ≤ c.last_accessed := by
  induction l generalizing a with
  | nil =>
    intro c hc
    simp only [List.mem_singleton] at hc
    subst hc
    simp
  | cons b bs ih =>
    intro c hc
    simp only [List.foldl_cons]
    have key : (olderOf a b).last_accessed ≤ a.last_accessed ∧
        (olderOf a b).last_accessed ≤ b.last_accessed := by
      unfold olderOf
      by_cases hab : b.last_accessed < a.last_accessed <;>
        simp [hab] <;> omega
    have hrec : (bs.foldl olderOf (olderOf a b)).last_accessed ≤
        (olderOf a b).last_accessed :=
      ih (olderOf a b) _ (List.mem_cons_self _ _)
    rcases List.mem_cons.mp hc with rfl | hc'
    · exact le_trans hrec key.1
    · rcases List.mem_cons.mp hc' with rfl | hc''
      · exact le_trans hrec key.2
      · exact ih (olderOf a b) c (List.mem_cons_of_mem _ hc'')

/-- C3: `evict_one` never returns a block with reference count > 0.  It
fails with `NoEvictableBlock` exactly when every block has reference count
≥ 1, and any block it returns belongs to the pool, has reference count 0,
and carries the oldest last-accessed stamp among all reference-count-0
blocks. -/
theorem C3_evict_one_only_unreferenced (blocks : List PhysicalTokenBlock) :
    (raised (evict_one blocks) ↔ ∀ b ∈ blocks, b.ref_count ≥ 1) ∧
    (∀ b, evict_one blocks = .ok b →
      b ∈ blocks ∧ b.ref_count = 0 ∧
      ∀ c ∈ blocks, c.ref_count = 0 →
        b.last_accessed ≤ c.last_accessed) := by
  constructor
  · constructor
    · intro h b hb
      rcases h with ⟨e, he⟩
      unfold evict_one at he
      rcases hfil : blocks.filter (fun b => b.ref_count == 0) with _ | ⟨x, xs⟩
      · have : ∀ c ∈ blocks, ¬(c.ref_count == 0) = true :=
          List.filter_eq_nil_iff.mp hfil
        have := this b hb
        simp only [beq_iff_eq] at this
        omega
      · rw [hfil] at he
        cases he
    · intro h
      unfold raised evict_one
      rcases hfil : blocks.filter (fun b => b.ref_count == 0) with _ | ⟨x, xs⟩
      · rw [hfil]
        exact ⟨_, rfl⟩
      · exfalso
        have hx : x ∈ blocks.filter (fun b => b.ref_count == 0) := by
          rw [hfil]; simp
        have := List.mem_filter.mp hx
        have h0 := h x this.1
        simp only [beq_iff_eq] at this
        omega
  · intro b hb
    unfold evict_one at hb
    rcases hfil : blocks.filter (fun b => b.ref_count == 0) with _ | ⟨x, xs⟩
    · rw [hfil] at hb; cases hb
    · rw [hfil] at hb
      have hbval : b = xs.foldl olderOf x := by
        cases hb; rfl
      have hbmem : b ∈ x :: xs := hbval ▸ foldl_olderOf_mem x xs
      have hsub : ∀ c ∈ x :: xs,
          c ∈ blocks ∧ c.ref_count = 0 := by
        intro c hc
        have : c ∈ blocks.filter (fun b => b.ref_count == 0) := by
          rw [hfil]; exact hc
        have := List.mem_filter.mp this
        refine ⟨this.1, by simpa using this.2⟩
      refine ⟨(hsub b hbmem).1, (hsub b hbmem).2, ?_⟩
      intro c hc hc0
      have hcf : c ∈ x :: xs := by
        rw [← hfil]
        exact List.mem_filter.mpr ⟨hc, by simp [hc0]⟩
      exact hbval ▸ foldl_olderOf_le x xs c hcf

/-- A referenced block (never evictable). -/
def c3BlockA : PhysicalTokenBlock :=
  { c1Block with block_number := 0, ref_count := 3, last_accessed := 0 }

/-- A free block with a recent stamp. -/
def c3BlockB : PhysicalTokenBlock :=
  { c1Block with block_number := 2, ref_count := 0, last_accessed := 5 }

/-- The free block with the oldest stamp among free blocks. -/
def c3BlockC : PhysicalTokenBlock :=
  { c1Block with block_number := 1, ref_count := 0, last_accessed := 2 }

/-- A concrete pool mixing referenced and free blocks. -/
def c3Pool : List PhysicalTokenBlock := [c3BlockA, c3BlockB, c3BlockC]

/-- C3 witness: on the concrete pool, `evict_one` returns the free block
with the oldest stamp, which indeed lies in the pool with reference
count 0. -/
theorem C3_evict_one_only_unreferenced_witness :
    c3BlockC ∈ c3Pool ∧ c3BlockC.ref_count = 0 :=
  have h := (C3_evict_one_only_unreferenced c3Pool).2 c3BlockC (by rfl)
  ⟨h.1, h.2.1⟩

/-! ## vllm/model_executor/guided_decoding/xgrammar_decoding.py -/

/-- Source `TokenizerData`: immutable container for cached tokenizer data.
`vocab_type` is the `xgr.VocabType` enum, embedded as `Nat`. -/
structure TokenizerData where
  encoded_vocab : List String := []
  stop_token_ids : Option (List Nat) := none
  vocab_size : Nat := 0
  vocab_type : Option Nat := none
  add_prefix_space : Bool := false
deriving Repr, DecidableEq

/-- Source `GrammarConfig`: serializable configuration for grammar compilation. -/
structure GrammarConfig where
  tokenizer_hash : Int
  vocab_size : Nat
  json_str : Option String := none
  grammar_str : Option String := none
  json_object : Option Bool := none
  any_whitespace : Bool := true
  max_threads : Nat := 8
  tokenizer_data : Option TokenizerData := none

/-- Source `TokenizerDataCache.get_tokenizer_data(tokenizer)`: looks the tokenizer
up by `hash(tokenizer)` in the class-level dict `_cache`; on a miss it runs
the vocabulary extraction (the body vendored from xgrammar, external calls
into the tokenizer — embedded as the function argument `extractVocab`) and
stores the result.  State-passing embedding of the mutable dict; the
returned `Bool` records whether the extraction branch ran. -/
def TokenizerDataCache.get_tokenizer_data {Tok : Type}
    (hashf : Tok → Int) (extractVocab : Tok → TokenizerData)
    (cache : List (Int × TokenizerData)) (tokenizer : Tok) :
    TokenizerData × List (Int × TokenizerData) × Bool :=
  let tokenizer_hash := hashf tokenizer
  match cache.lookup tokenizer_hash with
  | some d => (d, cache, false)
  | none =>
      let d := extractVocab tokenizer
      (d, (tokenizer_hash, d) :: cache, true)

/-- Source `GrammarCompilerCache.get_compiler(config)`: keyed by
`str(config.tokenizer_hash)` (injective on integers, so embedded as the
hash itself); on a miss asserts `config.tokenizer_data is not None` and
builds a compiler from the tokenizer data and `max_threads` (the
`xgr.GrammarCompiler` construction is external — embedded as the function
argument `build`).  The returned `Bool` records whether the construction
branch ran. -/
def GrammarCompilerCache.get_compiler {Compiler : Type}
    (build : TokenizerData → Nat → Compiler)
    (cache : List (Int × Compiler)) (config : GrammarConfig) :
    Except String (Compiler × List (Int × Compiler) × Bool) :=
  let cache_key := config.tokenizer_hash
  match cache.lookup cache_key with
  | some c => .ok (c, cache, false)
  | none =>
      match config.tokenizer_data with
      | none => .error "AssertionError"
      | some config_data =>
          let compiler := build config_data config.max_threads
          .ok (compiler, (cache_key, compiler) :: cache, true)

/-- C4: both class-level caches are idempotent per key.  After a first call
to `get_tokenizer_data`, a second call with a tokenizer of equal hash
returns the very same `TokenizerData` entry, leaves the cache unchanged and
does not run the vocabulary extraction again (so extraction runs at most
once per key); likewise a successful `get_compiler` call followed by one on
a `GrammarConfig` of equal `tokenizer_hash` returns the same compiler,
leaves the cache unchanged and does not rebuild. -/
theorem C4_class_level_caches_idempotent {Tok Compiler : Type}
    (hashf : Tok → Int) (extractVocab : Tok → TokenizerData)
    (build : TokenizerData → Nat → Compiler)
    (tcache : List (Int × TokenizerData)) (t1 t2 : Tok)
    (ccache : List (Int × Compiler)) (cfg1 cfg2 : GrammarConfig)
    (ht : hashf t1 = hashf t2)
    (hc : cfg1.tokenizer_hash = cfg2.tokenizer_hash) :
    (TokenizerDataCache.get_tokenizer_data hashf extractVocab
        (TokenizerDataCache.get_tokenizer_data hashf extractVocab
          tcache t1).2.1 t2 =
      ((TokenizerDataCache.get_tokenizer_data hashf extractVocab
          tcache t1).1,
       (TokenizerDataCache.get_tokenizer_data hashf extractVocab
          tcache t1).2.1,
       false)) ∧
    (∀ c1 st1 r1,
      GrammarCompilerCache.get_compiler build ccache cfg1 =
        .ok (c1, st1, r1) →
      GrammarCompilerCache.get_compiler build st1 cfg2 =
        .ok (c1, st1, false)) := by
  constructor
  · unfold TokenizerDataCache.get_tokenizer_data
    rcases hl : tcache.lookup (hashf t1) with _ | d
    · simp only [hl, ← ht]
      simp [List.lookup]
    · simp only [hl, ← ht, hl]
  · intro c1 st1 r1 h
    unfold GrammarCompilerCache.get_compiler at h ⊢
    dsimp only at h ⊢
    rcases hl : ccache.lookup cfg1.tokenizer_hash with _ | c
    · rw [hl] at h
      rcases htd : cfg1.tokenizer_data with _ | d
      · rw [htd] at h
        cases h
      · rw [htd] at h
        simp only [Except.ok.injEq, Prod.mk.injEq] at h
        obtain ⟨hc1, hst1, _⟩ := h
        subst hc1
        subst hst1
        simp [List.lookup, ← hc]
    · rw [hl] at h
      simp only [Except.ok.injEq, Prod.mk.injEq] at h
      obtain ⟨hc1, hst1, _⟩ := h
      subst hc1
      subst hst1
      simp [← hc, hl]

/-- C4 witness: two lookups of hash 7 on an initially empty tokenizer
cache, and two compiler lookups for the same `tokenizer_hash`, with
concrete extraction and build functions. -/
theorem C4_class_level_caches_idempotent_witness :
    ((7 : Int) = (7 : Int)) ∧
    (TokenizerDataCache.get_tokenizer_data (fun h => h)
        (fun _ => { vocab_size := 3 })
        (TokenizerDataCache.get_tokenizer_data (fun h => h)
          (fun _ => { vocab_size := 3 }) [] (7 : Int)).2.1 (7 : Int) =
      ((TokenizerDataCache.get_tokenizer_data (fun h => h)
          (fun _ => { vocab_size := 3 }) [] (7 : Int)).1,
       (TokenizerDataCache.get_tokenizer_data (fun h => h)
          (fun _ => { vocab_size := 3 }) [] (7 : Int)).2.1,
       false)) :=
  ⟨rfl,
   (C4_class_level_caches_idempotent (fun h => h)
      (fun _ => { vocab_size := 3 }) (fun _ _ => (42 : Nat)) [] 7 7 []
      { tokenizer_hash := 7, vocab_size := 3,
        tokenizer_data := some { vocab_size := 3 } }
      { tokenizer_hash := 7, vocab_size := 3 } rfl rfl).1⟩

/-! ## BlockSpaceManager admission check -/

/-- A queued request as the admission check sees it: its identifier and its
prompt length in tokens. -/
structure SeqGroup where
  request_id : String
  prompt_len : Nat
deriving Repr, DecidableEq

/-- The three admission verdicts. -/
inductive AllocStatus where
  | OK
  | OK_AFTER_EVICTION
  | NEVER
deriving Repr, DecidableEq

/-- The scheduler/pool state the admission pass runs against.  `running`
and `clock` are state an admission check must not depend on
(no hidden time-dependent state). -/
structure SchedulerState where
  waiting : List SeqGroup
  running : List SeqGroup
  block_size : Nat
  free_blocks : Nat
  evictable_blocks : Nat
  total_blocks : Nat
  clock : Int
deriving Repr, DecidableEq

/-- Blocks required to hold a prompt: one per `block_size` tokens, the last
one possibly partial (ceiling division). -/
def blocksRequired (block_size prompt_len : Nat) : Nat :=
  (prompt_len + block_size - 1) / block_size

/-- Modelled from the spec: `BlockSpaceManager.can_allocate(seq_group)` is
not part of the sources here; per the spec it "computes blocks required
(prompt length ...) versus `free_blocks + evictable_blocks`; `NEVER` if
required exceeds total pool capacity even with full eviction", answering
"admission questions without mutating state (pure checks)".  The returned
state makes the absence of mutation explicit.  When required blocks exceed
what is free but not total capacity, the verdict is `OK_AFTER_EVICTION`;
whether eviction (or deferral while running groups still hold blocks)
actually happens is the scheduler's decision, outside this check. -/
def can_allocate (st : SchedulerState) (g : SeqGroup) :
    AllocStatus × SchedulerState :=
  let required := blocksRequired st.block_size g.prompt_len
  if required > st.total_blocks then (.NEVER, st)
  else if required ≤ st.free_blocks then (.OK, st)
  else (.OK_AFTER_EVICTION, st)

/-- C5: `can_allocate` is deterministic and side-effect free — two states
agreeing on the WAITING queue and on the pool counts (free, evictable,
total, block size) produce the same verdict for every waiting group, and
no call mutates the state it is given. -/
theorem C5_can_allocate_deterministic_and_pure
    (st1 st2 : SchedulerState)
    (hw : st1.waiting = st2.waiting)
    (hb : st1.block_size = st2.block_size)
    (hf : st1.free_blocks = st2.free_blocks)
    (_he : st1.evictable_blocks = st2.evictable_blocks)
    (htot : st1.total_blocks = st2.total_blocks) :
    st1.waiting.map (fun g => (can_allocate st1 g).1) =
      st2.waiting.map (fun g => (can_allocate st2 g).1) ∧
    (∀ g, (can_allocate st1 g).2 = st1) ∧
    (∀ g, (can_allocate st2 g).2 = st2) := by
  refine ⟨?_, ?_, ?_⟩
  · rw [hw]
    apply List.map_congr_left
    intro g _
    simp only [can_allocate, hb, hf, htot]
    by_cases h1 : blocksRequired st2.block_size g.prompt_len >
        st2.total_blocks
    · simp [h1]
    · by_cases h2 : blocksRequired st2.block_size g.prompt_len ≤
          st2.free_blocks <;> simp [h1, h2]
  · intro g
    unfold can_allocate
    dsimp only
    split
    · rfl
    · split <;> rfl
  · intro g
    unfold can_allocate
    dsimp only
    split
    · rfl
    · split <;> rfl

/-- A concrete admission-time state. -/
def c5State1 : SchedulerState :=
  { waiting := [⟨"r1", 6⟩, ⟨"r2", 100⟩], running := [],
    block_size := 4, free_blocks := 1, evictable_blocks := 1,
    total_blocks := 4, clock := 0 }

/-- The same pool counts and WAITING queue at a later clock with a
different RUNNING queue. -/
def c5State2 : SchedulerState :=
  { c5State1 with running := [⟨"r0", 8⟩], clock := 17 }

/-- C5 witness: the two concrete states — identical but for hidden state —
get identical verdict lists and neither call mutates anything. -/
theorem C5_can_allocate_deterministic_and_pure_witness :
    c5State1.waiting.map (fun g => (can_allocate c5State1 g).1) =
      c5State2.waiting.map (fun g => (can_allocate c5State2 g).1) ∧
    (∀ g, (can_allocate c5State1 g).2 = c5State1) ∧
    (∀ g, (can_allocate c5State2 g).2 = c5State2) :=
  C5_can_allocate_deterministic_and_pure c5State1 c5State2
    rfl rfl rfl rfl rfl

/-! ## vllm/executor/gpu_executor.py -/

/-- The driver worker (an external collaborator: `vllm.worker.worker`);
only its executor-facing interface is embedded.  It holds the block counts
its memory probe produces and records the arguments `initialize_cache`
received. -/
structure Worker where
  gpu_block_capacity : Nat
  cpu_block_capacity : Nat
  cache_init_args : Option (Nat × Nat) := none
  device_initialized : Bool := false
  model_loaded : Bool := false
deriving Repr, DecidableEq

/-- The worker's `determine_num_available_blocks`: the capacity pair its
memory probe produces. -/
def Worker.determine_num_available_blocks (w : Worker) : Nat × Nat :=
  (w.gpu_block_capacity, w.cpu_block_capacity)

/-- The worker's `initialize_cache`: records the two counts it was given. -/
def Worker.initialize_cache (w : Worker) (num_gpu_blocks num_cpu_blocks : Nat) :
    Worker :=
  { w with cache_init_args := some (num_gpu_blocks, num_cpu_blocks) }

/-- The worker's `init_device`. -/
def Worker.init_device (w : Worker) : Worker :=
  { w with device_initialized := true }

/-- The worker's `load_model`. -/
def Worker.load_model (w : Worker) : Worker :=
  { w with model_loaded := true }

/-- Source `ParallelConfig`, restricted to the fields `gpu_executor.py` reads. -/
structure ParallelConfig where
  world_size : Nat
  tensor_parallel_size : Nat := 1
deriving Repr, DecidableEq

/-- The configs a `GPUExecutor` is constructed over (the fields it reads:
`cache_config.block_size`, `model_config.max_model_len`). -/
structure GPUExecutorConfig where
  parallel_config : ParallelConfig
  block_size : Nat
  max_model_len : Nat
deriving Repr, DecidableEq

/-- Source `GPUExecutor` after `_init_executor`: its configs plus the single
driver worker. -/
structure GPUExecutor where
  config : GPUExecutorConfig
  driver_worker : Worker
deriving Repr, DecidableEq

/-- Source `GPUExecutor._init_executor`: asserts
`parallel_config.world_size == 1`, then creates the driver worker (the
worker the factory `_create_worker` produces is passed in, its
construction being external), initialises its device and loads the
model. -/
def GPUExecutor.initExecutor (cfg : GPUExecutorConfig) (new_worker : Worker) :
    Except String GPUExecutor :=
  if cfg.parallel_config.world_size = 1 then
    .ok ⟨cfg, new_worker.init_device.load_model⟩
  else
    .error "GPUExecutor only supports single GPU."

/-- Source `GPUExecutor.determine_num_available_blocks`: returns the worker's
answer. -/
def GPUExecutor.determine_num_available_blocks (e : GPUExecutor) :
    Nat × Nat :=
  e.driver_worker.determine_num_available_blocks

/-- Source `GPUExecutor.initialize_cache(num_gpu_blocks, num_cpu_blocks)`: the
source computes `max_concurrency` purely for logging, then invokes the
worker with both counts; only the worker is affected. -/
def GPUExecutor.initialize_cache (e : GPUExecutor)
    (num_gpu_blocks num_cpu_blocks : Nat) : GPUExecutor :=
  { e with driver_worker :=
      e.driver_worker.initialize_cache num_gpu_blocks num_cpu_blocks }

/-- C7: `determine_num_available_blocks` returns exactly the pair the
driver worker produces, unmodified, and `initialize_cache` forwards both
counts to the worker unchanged while leaving every other executor field
(the configs, and the worker's own capacities) unaltered. -/
theorem C7_executor_forwards_block_counts (e : GPUExecutor) (g c : Nat) :
    e.determine_num_available_blocks =
      e.driver_worker.determine_num_available_blocks ∧
    e.determine_num_available_blocks =
      (e.driver_worker.gpu_block_capacity,
       e.driver_worker.cpu_block_capacity) ∧
    (e.initialize_cache g c).driver_worker =
      e.driver_worker.initialize_cache g c ∧
    (e.initialize_cache g c).driver_worker.cache_init_args = some (g, c) ∧
    (e.initialize_cache g c).config = e.config ∧
    (e.initialize_cache g c).driver_worker.gpu_block_capacity =
      e.driver_worker.gpu_block_capacity ∧
    (e.initialize_cache g c).driver_worker.cpu_block_capacity =
      e.driver_worker.cpu_block_capacity :=
  ⟨rfl, rfl, rfl, rfl, rfl, rfl, rfl⟩

/-- C8: `_init_executor` fails by assertion exactly when
`parallel_config.world_size ≠ 1`; under `world_size = 1` the failure
branch is unreachable and initialization yields an executor holding
exactly the one driver worker, device-initialised and with the model
loaded. -/
theorem C8_init_executor_single_gpu (cfg : GPUExecutorConfig) (w : Worker) :
    (raised (GPUExecutor.initExecutor cfg w) ↔
      cfg.parallel_config.world_size ≠ 1) ∧
    (cfg.parallel_config.world_size = 1 →
      GPUExecutor.initExecutor cfg w =
        .ok ⟨cfg, w.init_device.load_model⟩) := by
  constructor
  · constructor
    · intro h hws
      rcases h with ⟨e, he⟩
      simp [GPUExecutor.initExecutor, hws] at he
    · intro hws
      simp [GPUExecutor.initExecutor, hws, raised]
  · intro hws
    simp [GPUExecutor.initExecutor, hws]

/-- A single-GPU configuration. -/
def c8Config : GPUExecutorConfig :=
  { parallel_config := { world_size := 1 }, block_size := 16,
    max_model_len := 2048 }

/-- A fresh worker before initialization. -/
def c8Worker : Worker :=
  { gpu_block_capacity := 1024, cpu_block_capacity := 256 }

/-- C8 witness: with `world_size = 1` the assertion passes and the one
driver worker is created. -/
theorem C8_init_executor_single_gpu_witness :
    (raised (GPUExecutor.initExecutor c8Config c8Worker) ↔
      c8Config.parallel_config.world_size ≠ 1) ∧
    (c8Config.parallel_config.world_size = 1 →
      GPUExecutor.initExecutor c8Config c8Worker =
        .ok ⟨c8Config, c8Worker.init_device.load_model⟩) :=
  C8_init_executor_single_gpu c8Config c8Worker

/-! ## vllm/engine/multiprocessing/__init__.py -/

/-- Source `RPCProcessRequest` (dataclass): a generation request shipped to the
engine process.  `PromptType` and the params union are embedded as type
parameters; `trace_headers` (an optional mapping) as an optional
association list. -/
structure RPCProcessRequest (Prompt Params : Type) where
  prompt : Prompt
  params : Params
  request_id : String
  trace_headers : Option (List (String × String))
  priority : Int
deriving Repr, DecidableEq

/-- Source `RPCProcessRequest.__init__(prompt=None, params=None, request_id=None,
trace_headers=None, priority=0, *, inputs=None)`: the deprecated keyword
`inputs` (when given) replaces `prompt`; then
`assert prompt is not None and params is not None and request_id is not
None` guards construction. -/
def RPCProcessRequest.init {Prompt Params : Type}
    (prompt : Option Prompt) (params : Option Params)
    (request_id : Option String)
    (trace_headers : Option (List (String × String)))
    (priority : Int) (inputs : Option Prompt) :
    Except String (RPCProcessRequest Prompt Params) :=
  let prompt := if inputs.isSome then inputs else prompt
  match prompt, params, request_id with
  | some p, some pa, some rid => .ok ⟨p, pa, rid, trace_headers, priority⟩
  | _, _, _ => .error "AssertionError"

/-- C9: constructing an `RPCProcessRequest` through the deprecated keyword
`inputs=p` yields exactly the request constructed with `prompt=p` and the
same remaining arguments (so all five fields agree); constructing with
neither `prompt` nor `inputs`, or with `params` or `request_id` missing,
fails by assertion. -/
theorem C9_deprecated_inputs_keyword_equivalent {Prompt Params : Type}
    (p : Prompt) (pa : Params) (rid : String)
    (th : Option (List (String × String))) (prio : Int)
    (q : Option Prompt) (inp : Option Prompt) :
    RPCProcessRequest.init none (some pa) (some rid) th prio (some p) =
      RPCProcessRequest.init (some p) (some pa) (some rid) th prio none ∧
    (∀ r, RPCProcessRequest.init none (some pa) (some rid) th prio
        (some p) = .ok r →
      r.prompt = p ∧ r.params = pa ∧ r.request_id = rid ∧
        r.trace_headers = th ∧ r.priority = prio) ∧
    RPCProcessRequest.init (none : Option Prompt) (some pa) (some rid)
      th prio none = .error "AssertionError" ∧
    RPCProcessRequest.init q (none : Option Params) (some rid) th prio
      inp = .error "AssertionError" ∧
    RPCProcessRequest.init q (some pa) (none : Option String) th prio
      inp = .error "AssertionError" := by
  refine ⟨rfl, ?_, rfl, ?_, ?_⟩
  · intro r hr
    simp only [RPCProcessRequest.init, Option.isSome_some, if_pos] at hr
    simp only [Except.ok.injEq] at hr
    subst hr
    exact ⟨rfl, rfl, rfl, rfl, rfl⟩
  · cases inp <;> cases q <;> rfl
  · cases inp <;> cases q <;> rfl

/-- C9 witness: the deprecated construction evaluated at concrete
arguments, with its field-level consequences. -/
theorem C9_deprecated_inputs_keyword_equivalent_witness :
    @RPCProcessRequest.init String Nat none (some 3) (some "req-1") none 0
        (some "hello") =
      @RPCProcessRequest.init String Nat (some "hello") (some 3)
        (some "req-1") none 0 none ∧
    @RPCProcessRequest.init String Nat none (some 3) (some "req-1") none 0
      none = .error "AssertionError" :=
  have h := @C9_deprecated_inputs_keyword_equivalent String Nat "hello" 3
    "req-1" none 0 none none
  ⟨h.1, h.2.2.1⟩

end VLLM
